import Mathlib

/-!
# Permission-Set-Manager: list view, modal, detail components

A shallow embedding of the Lightning web components under
`force-app/main/default/lwc` and the properties proved about them.

* JavaScript strings are lists of characters (standing for their code units).
* A component is a structure of its fields; a handler is a function from the
  state before to the state after, together with the list of observable effects
  (backend calls, events, toasts, console output) it produced.
* A promise returned by an Apex call is represented by its settled outcome
  (`Except message value`), and a handler that chains on it is run to the point
  where the chain has settled.
-/

namespace PSM

deriving instance DecidableEq for Except

/-! ## The regular expression built by the list view -/

/-- The characters of the class `[-\/\\^$*+?.()|[\]{}]` used in
`permissionSetListView.js`, line 62. -/
def escapedChars : List Char :=
  ['-', '/', '\\', '^', '$', '*', '+', '?', '.', '(', ')', '|', '[', ']', '{', '}']

/-- Membership in the class `[-\/\\^$*+?.()|[\]{}]`. -/
def isEscapedChar (c : Char) : Bool := decide (c ∈ escapedChars)

/-- The call `searchKey.replace(/[-\/\\^$*+?.()|[\]{}]/g, '\\$&')`: every
character of the class is replaced by a backslash followed by itself. -/
def escapeSearchKey : List Char → List Char
  | [] => []
  | c :: cs =>
    if isEscapedChar c then '\\' :: c :: escapeSearchKey cs
    else c :: escapeSearchKey cs

/-- The ways `new RegExp(source, 'i')` can fail in this model: `syntaxError` is
the SyntaxError thrown by the runtime, `unsupported` marks pattern sources that
are outside the fragment of the pattern grammar modelled here (character
classes, counted repetition, special groups, escapes other than the identity
escapes of the sixteen characters above). -/
inductive RegExpError where
  | syntaxError
  | unsupported
  deriving DecidableEq

/-- Lexical items of a pattern source. Only `lit` matches a character
literally; every other item is a pattern operator. -/
inductive Token where
  | lit (c : Char)
  | dot
  | star
  | plus
  | quest
  | bar
  | lparen
  | rparen
  | caret
  | dollar
  deriving DecidableEq

/-- What the lexer has just read. -/
inductive LexMode where
  | normal
  | afterBackslash
  | afterLparen
  deriving DecidableEq

/-- An unescaped character of a pattern source: the syntax characters are
operators, every other character is a pattern character. -/
def classify (c : Char) : Except RegExpError Token :=
  if c = '.' then .ok .dot
  else if c = '*' then .ok .star
  else if c = '+' then .ok .plus
  else if c = '?' then .ok .quest
  else if c = '|' then .ok .bar
  else if c = '(' then .ok .lparen
  else if c = ')' then .ok .rparen
  else if c = '^' then .ok .caret
  else if c = '$' then .ok .dollar
  else if c = '[' ∨ c = ']' ∨ c = '{' ∨ c = '}' then .error .unsupported
  else .ok (.lit c)

/-- The lexer of pattern sources, for the flags `'i'` (no unicode flag). A
backslash followed by one of the sixteen characters of `escapedChars` is an
identity escape and denotes that character literally; a backslash at the end of
the source is a SyntaxError; an opening parenthesis followed by `?` starts a
special group, which is outside the fragment. -/
def tokenizeAux : LexMode → List Char → Except RegExpError (List Token)
  | .normal, [] => .ok []
  | .afterLparen, [] => .ok []
  | .afterBackslash, [] => .error .syntaxError
  | .afterBackslash, c :: cs =>
    if isEscapedChar c then
      match tokenizeAux .normal cs with
      | .ok ts => .ok (.lit c :: ts)
      | .error e => .error e
    else .error .unsupported
  | .afterLparen, c :: cs =>
    if c = '?' then .error .unsupported
    else if c = '\\' then tokenizeAux .afterBackslash cs
    else
      match classify c with
      | .error e => .error e
      | .ok t =>
        match tokenizeAux (if c = '(' then .afterLparen else .normal) cs with
        | .ok ts => .ok (t :: ts)
        | .error e => .error e
  | .normal, c :: cs =>
    if c = '\\' then tokenizeAux .afterBackslash cs
    else
      match classify c with
      | .error e => .error e
      | .ok t =>
        match tokenizeAux (if c = '(' then .afterLparen else .normal) cs with
        | .ok ts => .ok (t :: ts)
        | .error e => .error e

/-- Lexing of a whole pattern source. -/
def tokenize (source : List Char) : Except RegExpError (List Token) :=
  tokenizeAux .normal source

/-- Abstract patterns of the modelled fragment. -/
inductive Re where
  | empty
  | char (c : Char)
  | any
  | bol
  | eol
  | seq (a b : Re)
  | alt (a b : Re)
  | star (a : Re)
  deriving DecidableEq

/-- The terms of one alternative, most recent first, as one pattern. -/
def mkSeq (revTerms : List Re) : Re :=
  revTerms.foldl (fun acc t => Re.seq t acc) Re.empty

/-- One nesting level of the parser: the alternatives closed by `|` so far
(most recent first) and the terms of the alternative being read (most recent
first). -/
structure Frame where
  alts : List Re
  cur : List Re
  deriving DecidableEq

/-- The disjunction denoted by a frame. -/
def closeFrame (f : Frame) : Re :=
  f.alts.foldl (fun acc a => Re.alt a acc) (mkSeq f.cur)

/-- What the parser has just read, for the quantifier rules. -/
inductive Last where
  | nothing
  | atom
  | quantified
  deriving DecidableEq

/-- Parser state: the enclosing groups, the group being read, and the kind of
the last item. -/
structure ParseState where
  stack : List Frame
  top : Frame
  last : Last
  deriving DecidableEq

/-- The state before the first token. -/
def ParseState.init : ParseState := ⟨[], ⟨[], []⟩, .nothing⟩

/-- Replace the most recent term `t` of the frame by `q t`. -/
def quantify (q : Re → Re) (st : ParseState) : Except RegExpError ParseState :=
  match st.last, st.top.cur with
  | .atom, t :: ts => .ok ⟨st.stack, ⟨st.top.alts, q t :: ts⟩, .quantified⟩
  | _, _ => .error .syntaxError

/-- One step of the parser. -/
def parseStep (st : ParseState) : Token → Except RegExpError ParseState
  | .lit c => .ok ⟨st.stack, ⟨st.top.alts, Re.char c :: st.top.cur⟩, .atom⟩
  | .dot => .ok ⟨st.stack, ⟨st.top.alts, Re.any :: st.top.cur⟩, .atom⟩
  | .caret => .ok ⟨st.stack, ⟨st.top.alts, Re.bol :: st.top.cur⟩, .nothing⟩
  | .dollar => .ok ⟨st.stack, ⟨st.top.alts, Re.eol :: st.top.cur⟩, .nothing⟩
  | .star => quantify Re.star st
  | .plus => quantify (fun t => Re.seq t (Re.star t)) st
  | .quest =>
    match st.last with
    | .quantified => .ok ⟨st.stack, st.top, .nothing⟩
    | _ => quantify (fun t => Re.alt t Re.empty) st
  | .bar => .ok ⟨st.stack, ⟨mkSeq st.top.cur :: st.top.alts, []⟩, .nothing⟩
  | .lparen => .ok ⟨st.top :: st.stack, ⟨[], []⟩, .nothing⟩
  | .rparen =>
    match st.stack with
    | [] => .error .syntaxError
    | f :: fs => .ok ⟨fs, ⟨f.alts, closeFrame st.top :: f.cur⟩, .atom⟩

/-- The parser run over a token list. -/
def parseTokens : ParseState → List Token → Except RegExpError ParseState
  | st, [] => .ok st
  | st, t :: ts =>
    match parseStep st t with
    | .ok st' => parseTokens st' ts
    | .error e => .error e

/-- End of the source: every group must have been closed. -/
def finish (st : ParseState) : Except RegExpError Re :=
  match st.stack with
  | [] => .ok (closeFrame st.top)
  | _ :: _ => .error .syntaxError

/-- The constructor call `new RegExp(source, 'i')` on the modelled fragment. -/
def compile (source : List Char) : Except RegExpError Re :=
  match tokenize source with
  | .error e => .error e
  | .ok ts =>
    match parseTokens ParseState.init ts with
    | .error e => .error e
    | .ok st => finish st

/-- Line terminators, which `.` does not match. -/
def isLineTerminator (c : Char) : Bool :=
  decide (c = '\n' ∨ c = '\r' ∨ c.toNat = 0x2028 ∨ c.toNat = 0x2029)

/-- Repetition of a matcher `m`: an iteration that consumes nothing is not
repeated, so the length of the remaining input bounds the number of rounds. -/
def starK (m : Nat → List Char → (Nat → List Char → Bool) → Bool) :
    Nat → Nat → List Char → (Nat → List Char → Bool) → Bool
  | 0, i, s, k => k i s
  | fuel + 1, i, s, k =>
    m i s (fun j t => decide (t.length < s.length) && starK m fuel j t k) || k i s

/-- Backtracking matcher with the ignore-case flag set: `matchK canon re i s k`
matches `re` at index `i`, where `s` is the input from `i` on, and hands the
index and input after the match to the continuation `k`. Two characters are
equal when their images under `canon` (the Canonicalize operation of the
runtime, simple upper-casing) are equal. -/
def Re.matchK (canon : Char → Char) :
    Re → Nat → List Char → (Nat → List Char → Bool) → Bool
  | .empty, i, s, k => k i s
  | .char c, i, s, k =>
    match s with
    | [] => false
    | x :: xs => decide (canon x = canon c) && k (i + 1) xs
  | .any, i, s, k =>
    match s with
    | [] => false
    | x :: xs => !isLineTerminator x && k (i + 1) xs
  | .bol, i, s, k => decide (i = 0) && k i s
  | .eol, i, s, k => s.isEmpty && k i s
  | .seq a b, i, s, k => a.matchK canon i s (fun j t => b.matchK canon j t k)
  | .alt a b, i, s, k => a.matchK canon i s k || b.matchK canon i s k
  | .star a, i, s, k => starK (a.matchK canon) s.length i s k

/-- The search of `RegExp.prototype.test` (no global or sticky flag): the
pattern is tried at every index of the input from `i` on. -/
def searchFrom (canon : Char → Char) (re : Re) : Nat → List Char → Bool
  | i, [] => re.matchK canon i [] (fun _ _ => true)
  | i, x :: xs => re.matchK canon i (x :: xs) (fun _ _ => true) || searchFrom canon re (i + 1) xs

/-- The expression `new RegExp(source, 'i').test(input)`. -/
def regExpTest (canon : Char → Char) (source input : List Char) : Except RegExpError Bool :=
  match compile source with
  | .error e => .error e
  | .ok re => .ok (searchFrom canon re 0 input)

/-- The test of line 62:
`new RegExp(searchKey.replace(/[-\/\\^$*+?.()|[\]{}]/g, '\\$&'), 'i').test(label)`. -/
def containsSearchKey (canon : Char → Char) (searchKey label : List Char) :
    Except RegExpError Bool :=
  regExpTest canon (escapeSearchKey searchKey) label

/-- Upper-casing of the letters `a` to `z`, the restriction of Canonicalize to
ASCII, used for concrete examples. -/
def asciiCanon (c : Char) : Char := c.toUpper

/-- Statement of "label contains search as a literal substring up to letter
case": the canonicalised search text is a contiguous part of the canonicalised
label. -/
def ContainsIgnoringCase (canon : Char → Char) (search label : List Char) : Prop :=
  search.map canon <:+: label.map canon

instance (canon : Char → Char) (search label : List Char) :
    Decidable (ContainsIgnoringCase canon search label) := by
  unfold ContainsIgnoringCase
  infer_instance

/-- The pattern that matches the characters of `s` one after the other. -/
def litSeq (s : List Char) : Re := (s.map Re.char).foldr Re.seq Re.empty


/-! ## Shared data: records, effects, exceptions -/

/-- A permission set as returned by the Apex controller: the fields the
components read (`name`, `label`, `isManaged`). -/
structure PermissionSet where
  name : String
  label : String
  isManaged : Bool
  deriving DecidableEq

/-- A permission set assignment setting record. -/
structure AssignmentSetting where
  PermissionSet__c : String
  SOQL_Filter__c : String
  deriving DecidableEq

/-- Observable effects of a handler, in the order they happen. -/
inductive Effect where
  | consoleWarn (message : String)
  | consoleError (message : String)
  | fireEvent (eventName : String) (payload : String)
  | customEvent (eventType : String)
  | showToast (title : String) (message : String) (variant : String)
  | getPermissionSet (permissionSetName : String)
  | getPermissionSetAssignmentSetting (permissionSetName : String)
  | validateQueryFilter (userProvidedQueryFilterInput : String)
  | upsertPermissionSetAssignmentSettingRecord (record : AssignmentSetting)
  deriving DecidableEq

/-- Exceptions a handler can throw. -/
inductive JsError where
  | typeError
  | regExp (e : RegExpError)
  deriving DecidableEq

/-- Result of running a handler: the component afterwards, the effects, and the
exception that ended the handler, if any. Field writes made before the
exception remain in `state`. -/
structure Outcome (σ : Type) where
  state : σ
  effects : List Effect
  thrown : Option JsError
  deriving DecidableEq

/-! ## PermissionSetListView -/

/-- Fields of `PermissionSetListView`. `permissionSets` and
`displayedPermissionSets` are `none` while `undefined`. -/
structure PermissionSetListView where
  permissionSets : Option (List PermissionSet)
  displayedPermissionSets : Option (List PermissionSet)
  selectedPermissionSet : Option String
  searchKey : String
  listView : String
  error : Option String
  deriving DecidableEq

/-- Field initialisers of the class. -/
def PermissionSetListView.init : PermissionSetListView :=
  ⟨none, none, none, "", "All_Permission_Sets", none⟩

/-- The parts of a change event the handler reads: `event.target.name`,
`event.target.value` and `event.detail.value`. -/
structure ChangeEvent where
  targetName : String
  targetValue : String
  detailValue : String
  deriving DecidableEq

/-- Method `setDisplayedPermissionSets`. -/
def PermissionSetListView.setDisplayedPermissionSets (self : PermissionSetListView)
    (displayedPermissionSets : Option (List PermissionSet)) : PermissionSetListView :=
  match displayedPermissionSets with
  | none => { self with displayedPermissionSets := none }
  | some l =>
    if l.length = 0 then { self with displayedPermissionSets := none }
    else { self with displayedPermissionSets := some l }

/-- The wired callback `getPermissionSets({ error, data })`. -/
def PermissionSetListView.getPermissionSets (error : Option String)
    (data : Option (List PermissionSet)) (self : PermissionSetListView) :
    PermissionSetListView :=
  let self1 : PermissionSetListView :=
    match data, error with
    | some d, _ => { self with permissionSets := some d, error := none }
    | none, some e => { self with error := some e, permissionSets := none }
    | none, none => self
  self1.setDisplayedPermissionSets self1.permissionSets

/-- Method `handleClick` of the list view: publishes the selected name. -/
def PermissionSetListView.handleClick (permissionSetName : String)
    (self : PermissionSetListView) : Outcome PermissionSetListView :=
  ⟨self, [.fireEvent "permissionSetSelected" permissionSetName], none⟩

/-- The first `switch` of `handleChange`: the field update selected by
`event.target.name`. -/
def PermissionSetListView.applyChange (event : ChangeEvent) (self : PermissionSetListView) :
    PermissionSetListView × List Effect :=
  if event.targetName = "listView" then
    ({ self with listView := event.detailValue }, [])
  else if event.targetName = "permissionSetSearch" then
    ({ self with searchKey := event.targetValue }, [])
  else (self, [.consoleWarn "Unexpected change type"])

/-- The callback handed to `filter` in `handleChange`. A callback that falls
through the inner `switch` returns `undefined`, which `filter` treats as
false. -/
def PermissionSetListView.filterCallback (canon : Char → Char) (self : PermissionSetListView)
    (permissionSet : PermissionSet) : Except RegExpError (Bool × List Effect) :=
  match containsSearchKey canon self.searchKey.toList permissionSet.label.toList with
  | .error e => .error e
  | .ok containsKey =>
    if self.listView = "All_Permission_Sets" then .ok (containsKey, [])
    else if self.listView = "Managed" then .ok (permissionSet.isManaged && containsKey, [])
    else if self.listView = "Unmanaged" then .ok (!permissionSet.isManaged && containsKey, [])
    else .ok (false, [.consoleWarn "Unexpected list view selected"])

/-- `Array.prototype.filter` with a callback that can throw and log. -/
def jsFilter {α ε : Type} (f : α → Except ε (Bool × List Effect)) :
    List α → Except ε (List α × List Effect)
  | [] => .ok ([], [])
  | x :: xs =>
    match f x with
    | .error e => .error e
    | .ok (keep, log) =>
      match jsFilter f xs with
      | .error e => .error e
      | .ok (rest, logs) => .ok (if keep then x :: rest else rest, log ++ logs)

/-- Method `handleChange` of the list view. Reading `filter` off an undefined
`permissionSets` throws a TypeError after the field update has been made. -/
def PermissionSetListView.handleChange (canon : Char → Char) (event : ChangeEvent)
    (self : PermissionSetListView) : Outcome PermissionSetListView :=
  let self1 := (self.applyChange event).1
  let log1 := (self.applyChange event).2
  match self1.permissionSets with
  | none => ⟨self1, log1, some .typeError⟩
  | some catalog =>
    match jsFilter (self1.filterCallback canon) catalog with
    | .error e => ⟨self1, log1, some (.regExp e)⟩
    | .ok (shown, log2) =>
      ⟨self1.setDisplayedPermissionSets (some shown), log1 ++ log2, none⟩

/-! ### The visible set as the specification words it -/

/-- The three list views offered by `listViewOptions`. -/
inductive Category where
  | all
  | managed
  | unmanaged
  deriving DecidableEq

/-- The `value` of a list view option. -/
def Category.value : Category → String
  | .all => "All_Permission_Sets"
  | .managed => "Managed"
  | .unmanaged => "Unmanaged"

/-- Category predicate: ALL is always true, MANAGED is `isManaged`, UNMANAGED
is its negation. -/
def Category.holds : Category → PermissionSet → Bool
  | .all, _ => true
  | .managed, p => p.isManaged
  | .unmanaged, p => !p.isManaged

/-- The visible set: the items whose label contains the search key up to case
and that satisfy the category predicate, in the order of the catalog. -/
def visibleSet (canon : Char → Char) (searchKey : String) (category : Category)
    (catalog : List PermissionSet) : List PermissionSet :=
  catalog.filter (fun p =>
    decide (ContainsIgnoringCase canon searchKey.toList p.label.toList) && category.holds p)

/-- Number of elements of a possibly absent list; an absent list has none. -/
def numElements {α : Type} : Option (List α) → Nat
  | none => 0
  | some l => l.length

/-! ## IdmModal -/

/-- Fields of `IdmModal`. -/
structure IdmModal where
  preventClose : Bool
  isOpen : Bool
  deriving DecidableEq

/-- Field initialisers of the class: not prevented from closing, closed. -/
def IdmModal.init : IdmModal := ⟨false, false⟩

/-- Method `getIsOpen`. -/
def IdmModal.getIsOpen (self : IdmModal) : Bool := self.isOpen

/-- Method `openModal`. -/
def IdmModal.openModal (self : IdmModal) : IdmModal × List Effect :=
  ({ self with isOpen := true }, [.customEvent "open"])

/-- Method `closeModal`. -/
def IdmModal.closeModal (self : IdmModal) : IdmModal × List Effect :=
  ({ self with isOpen := false }, [.customEvent "close"])

/-- The public surface of `IdmModal`: the three methods and the assignment of
the `preventClose` property. -/
inductive ModalOp where
  | getIsOpen
  | openModal
  | closeModal
  | setPreventClose (value : Bool)
  deriving DecidableEq

/-- The modal after an operation, the events it dispatched, and the value
returned (for `getIsOpen`). -/
def IdmModal.step (self : IdmModal) : ModalOp → IdmModal × List Effect × Option Bool
  | .getIsOpen => (self, [], some self.getIsOpen)
  | .openModal => (self.openModal.1, self.openModal.2, none)
  | .closeModal => (self.closeModal.1, self.closeModal.2, none)
  | .setPreventClose value => ({ self with preventClose := value }, [], none)

/-! ## The Apex controller as seen by the components -/

/-- The settled outcome of each Apex call: `.ok value` when the promise is
fulfilled, `.error message` when it is rejected, `message` being
`error.body.message`. A fulfilled read of a record that does not exist yields
`none` (`null`). -/
structure Backend where
  getPermissionSet : String → Except String (Option PermissionSet)
  getPermissionSetAssignmentSetting : String → Except String (Option AssignmentSetting)
  validateQueryFilter : String → Except String Unit
  upsertPermissionSetAssignmentSettingRecord : AssignmentSetting → Except String Unit

/-! ## PermissionSetAssignmentDetail -/

/-- Fields of `PermissionSetAssignmentDetail`, with the state of its `c-modal`
child. -/
structure PermissionSetAssignmentDetail where
  _permissionSetName : Option String
  isLoading : Bool
  error : Option String
  permissionSet : Option PermissionSet
  permissionSetAssignmentSetting : Option AssignmentSetting
  permissionSetAssignmentSettingToUpsert : Option AssignmentSetting
  modal : IdmModal
  deriving DecidableEq

/-- Field initialisers of the class. -/
def PermissionSetAssignmentDetail.init : PermissionSetAssignmentDetail :=
  ⟨none, false, none, none, none, none, IdmModal.init⟩

/-- The `finally` callback of the setter. -/
def PermissionSetAssignmentDetail.settle (self : PermissionSetAssignmentDetail) :
    PermissionSetAssignmentDetail :=
  { self with isLoading := false, error := none }

/-- The `then` callback of the setter, run when both reads are fulfilled.
Reading `name` off a `null` permission set throws a TypeError, which the
`catch` callback logs. -/
def PermissionSetAssignmentDetail.loaded (self : PermissionSetAssignmentDetail)
    (permissionSet : Option PermissionSet)
    (permissionSetAssignmentSetting : Option AssignmentSetting) :
    PermissionSetAssignmentDetail × List Effect :=
  let self1 : PermissionSetAssignmentDetail :=
    { self with
      permissionSet := permissionSet,
      permissionSetAssignmentSetting := permissionSetAssignmentSetting,
      permissionSetAssignmentSettingToUpsert := permissionSetAssignmentSetting }
  match self1.permissionSetAssignmentSettingToUpsert with
  | some _ => (self1, [])
  | none =>
    match self1.permissionSet with
    | some ps =>
      ({ self1 with permissionSetAssignmentSettingToUpsert := some ⟨ps.name, ""⟩ }, [])
    | none => (self1, [.consoleError "Error"])

/-- The setter of `permissionSetName`, run until the joined request has
settled. `none` is `undefined`; `undefined` and the empty string are falsy. -/
def PermissionSetAssignmentDetail.setPermissionSetName (backend : Backend)
    (permissionSetName : Option String) (self : PermissionSetAssignmentDetail) :
    Outcome PermissionSetAssignmentDetail :=
  match permissionSetName with
  | none => ⟨self, [], none⟩
  | some n =>
    if n ≠ "" ∧ self._permissionSetName ≠ some n then
      let self1 : PermissionSetAssignmentDetail :=
        { self with _permissionSetName := some n, isLoading := true }
      let calls : List Effect := [.getPermissionSet n, .getPermissionSetAssignmentSetting n]
      match backend.getPermissionSet n, backend.getPermissionSetAssignmentSetting n with
      | .ok permissionSet, .ok setting =>
        ⟨(self1.loaded permissionSet setting).1.settle,
          calls ++ (self1.loaded permissionSet setting).2, none⟩
      | .error _, _ => ⟨self1.settle, calls ++ [.consoleError "Error"], none⟩
      | .ok _, .error _ => ⟨self1.settle, calls ++ [.consoleError "Error"], none⟩
    else ⟨self, [], none⟩

/-- Getter `isEmptyState`. -/
def PermissionSetAssignmentDetail.isEmptyState (self : PermissionSetAssignmentDetail) : Bool :=
  decide (self._permissionSetName ≠ none ∧ self._permissionSetName ≠ some "") &&
    !self.isLoading && self.permissionSetAssignmentSetting.isNone

/-- The toast dispatched after a successful save. -/
def saveToast : Effect :=
  .showToast "Success" "Permission Set Assignment Setting save enqueued successfully." "success"

/-- Method `handleClick` of the assignment detail, run until the promise chain
of the `save` case has settled. `targetName` is `event.target.name`. -/
def PermissionSetAssignmentDetail.handleClick (backend : Backend) (targetName : String)
    (self : PermissionSetAssignmentDetail) : Outcome PermissionSetAssignmentDetail :=
  if targetName = "manageAssignmentsEdit" ∨ targetName = "manageAssignmentsNew" then
    ⟨{ self with modal := self.modal.openModal.1 }, self.modal.openModal.2, none⟩
  else if targetName = "save" then
    match self.permissionSetAssignmentSettingToUpsert with
    | none => ⟨self, [], some .typeError⟩
    | some draft =>
      match backend.validateQueryFilter draft.SOQL_Filter__c with
      | .error message =>
        ⟨{ self with error := some message },
          [.validateQueryFilter draft.SOQL_Filter__c], none⟩
      | .ok _ =>
        match backend.upsertPermissionSetAssignmentSettingRecord draft with
        | .error message =>
          ⟨{ self with error := some message },
            [.validateQueryFilter draft.SOQL_Filter__c,
              .upsertPermissionSetAssignmentSettingRecord draft], none⟩
        | .ok _ =>
          ⟨{ self with error := none, modal := self.modal.closeModal.1 },
            [.validateQueryFilter draft.SOQL_Filter__c,
              .upsertPermissionSetAssignmentSettingRecord draft] ++
              self.modal.closeModal.2 ++ [saveToast], none⟩
  else if targetName = "cancel" then
    ⟨{ self with modal := self.modal.closeModal.1 }, self.modal.closeModal.2, none⟩
  else ⟨self, [.consoleWarn "Unexpected click type."], none⟩

/-- Method `handleChange` of the assignment detail. The draft is the loaded
setting itself when one was loaded, so the write reaches both fields. -/
def PermissionSetAssignmentDetail.handleChange (targetName targetValue : String)
    (self : PermissionSetAssignmentDetail) : Outcome PermissionSetAssignmentDetail :=
  if targetName = "userCriteria" then
    match self.permissionSetAssignmentSettingToUpsert with
    | none => ⟨self, [], some .typeError⟩
    | some draft =>
      ⟨{ self with
          permissionSetAssignmentSettingToUpsert :=
            some { draft with SOQL_Filter__c := targetValue },
          permissionSetAssignmentSetting :=
            self.permissionSetAssignmentSetting.map
              (fun _ => { draft with SOQL_Filter__c := targetValue }) }, [], none⟩
  else ⟨self, [.consoleWarn "Unexpected change type."], none⟩

/-! ## PermissionSetDetail -/

/-- Fields of `PermissionSetDetail`. -/
structure PermissionSetDetail where
  permissionSet : Option PermissionSet
  isLoading : Bool
  deriving DecidableEq

/-- Field initialisers of the class. -/
def PermissionSetDetail.init : PermissionSetDetail := ⟨none, false⟩

/-- The fetch started by `handlePermissionSetSelected`, run until settled. -/
def PermissionSetDetail.fetch (backend : Backend) (permissionSetName : String)
    (self : PermissionSetDetail) : Outcome PermissionSetDetail :=
  let self1 : PermissionSetDetail := { self with isLoading := true }
  match backend.getPermissionSet permissionSetName with
  | .ok permissionSet =>
    ⟨{ self1 with permissionSet := permissionSet, isLoading := false },
      [.getPermissionSet permissionSetName], none⟩
  | .error _ =>
    ⟨{ self1 with isLoading := false },
      [.getPermissionSet permissionSetName, .consoleError "Error"], none⟩

/-- Listener `handlePermissionSetSelected` of `PermissionSetDetail`. -/
def PermissionSetDetail.handlePermissionSetSelected (backend : Backend)
    (permissionSetName : String) (self : PermissionSetDetail) : Outcome PermissionSetDetail :=
  match self.permissionSet with
  | none => self.fetch backend permissionSetName
  | some ps =>
    if ps.name ≠ permissionSetName then self.fetch backend permissionSetName
    else ⟨self, [], none⟩

/-! ## PermissionSetManager -/

/-- Fields of `PermissionSetManager`. -/
structure PermissionSetManager where
  permissionSetName : Option String
  deriving DecidableEq

/-- Field initialisers of the class. -/
def PermissionSetManager.init : PermissionSetManager := ⟨none⟩

/-- Listener `handlePermissionSetSelected` of `PermissionSetManager`. -/
def PermissionSetManager.handlePermissionSetSelected (permissionSetName : String)
    (self : PermissionSetManager) : PermissionSetManager :=
  { self with permissionSetName := some permissionSetName }

/-! ## Readings of the effect list and example inputs -/

/-- The effect is a call of `upsertPermissionSetAssignmentSettingRecord`. -/
def Effect.isUpsert : Effect → Bool
  | .upsertPermissionSetAssignmentSettingRecord _ => true
  | _ => false

/-- The effect is a toast. -/
def Effect.isToast : Effect → Bool
  | .showToast _ _ _ => true
  | _ => false

/-- The effect is the `close` event, which `closeModal` dispatches on every
call. -/
def Effect.isModalClose : Effect → Bool
  | .customEvent eventType => decide (eventType = "close")
  | _ => false

/-- The effect is a call of one of the two read methods. -/
def Effect.isFetch : Effect → Bool
  | .getPermissionSet _ => true
  | .getPermissionSetAssignmentSetting _ => true
  | _ => false

/-- A controller that knows the permission set `PS1`, has no assignment setting
for it, and accepts every filter and every record. -/
def exampleBackend : Backend where
  getPermissionSet := fun n => if n = "PS1" then .ok (some ⟨"PS1", "Permission Set 1", false⟩) else .ok none
  getPermissionSetAssignmentSetting := fun _ => .ok none
  validateQueryFilter := fun _ => .ok ()
  upsertPermissionSetAssignmentSettingRecord := fun _ => .ok ()

/-- A controller every call of which is rejected with the message `boom`. -/
def failingBackend : Backend where
  getPermissionSet := fun _ => .error "boom"
  getPermissionSetAssignmentSetting := fun _ => .error "boom"
  validateQueryFilter := fun _ => .error "boom"
  upsertPermissionSetAssignmentSettingRecord := fun _ => .error "boom"

/-- A controller that accepts every filter and rejects every upsert with the
message `boom`. -/
def rejectingBackend : Backend where
  getPermissionSet := fun _ => .error "boom"
  getPermissionSetAssignmentSetting := fun _ => .error "boom"
  validateQueryFilter := fun _ => .ok ()
  upsertPermissionSetAssignmentSettingRecord := fun _ => .error "boom"

/-- An assignment detail showing `PS0` with a loaded setting, an earlier save
error on display and the modal open. -/
def exampleDetail : PermissionSetAssignmentDetail where
  _permissionSetName := some "PS0"
  isLoading := false
  error := some "unexpected token"
  permissionSet := some ⟨"PS0", "Permission Set 0", true⟩
  permissionSetAssignmentSetting := some ⟨"PS0", "IsActive = true"⟩
  permissionSetAssignmentSettingToUpsert := some ⟨"PS0", "IsActive = true"⟩
  modal := ⟨false, true⟩

/-- A controller whose read of any permission set is fulfilled with the record
named `OTHER`, and that has no assignment setting. -/
def renamingBackend : Backend where
  getPermissionSet := fun _ => .ok (some ⟨"OTHER", "Other", false⟩)
  getPermissionSetAssignmentSetting := fun _ => .ok none
  validateQueryFilter := fun _ => .ok ()
  upsertPermissionSetAssignmentSettingRecord := fun _ => .ok ()

/-- A controller whose reads are fulfilled with no record. -/
def emptyBackend : Backend where
  getPermissionSet := fun _ => .ok none
  getPermissionSetAssignmentSetting := fun _ => .ok none
  validateQueryFilter := fun _ => .ok ()
  upsertPermissionSetAssignmentSettingRecord := fun _ => .ok ()

/-- A list view in which "zzz" was typed before the catalog arrived. -/
def typedAheadListView : PermissionSetListView :=
  ⟨none, none, none, "zzz", "All_Permission_Sets", none⟩

/-- A catalog of three permission sets. -/
def exampleCatalog : List PermissionSet :=
  [⟨"A", "Sales Admin", true⟩, ⟨"B", "admin (custom)", false⟩, ⟨"C", "Billing", true⟩]

/-- A list view with `exampleCatalog` loaded and the Managed view selected. -/
def exampleListView : PermissionSetListView :=
  ⟨some exampleCatalog, some exampleCatalog, none, "", "Managed", none⟩

/-! ## Lemmas on the regular expression of the list view -/

/-- The model on sources that are not escaped: `.`, `*`, `+`, `|`, groups and
`$` act as operators, and an unclosed group is a SyntaxError. -/
theorem regExpTest_operators :
    regExpTest asciiCanon "a.b*c".toList "aXbbbc".toList = .ok true ∧
    regExpTest asciiCanon "a.b*c".toList "a.b*c".toList = .ok false ∧
    regExpTest asciiCanon "(a|b)+c$".toList "xxabac".toList = .ok true ∧
    regExpTest asciiCanon "(a|b)+c$".toList "xxabacx".toList = .ok false ∧
    regExpTest asciiCanon "(a".toList "xxabac".toList = .error .syntaxError ∧
    containsSearchKey asciiCanon "a.b*c".toList "aXbbbc".toList = .ok false ∧
    containsSearchKey asciiCanon "(a".toList "xx(Ac".toList = .ok true := by
  decide


theorem classify_of_not_escaped (c : Char) (h : isEscapedChar c = false) :
    c ≠ '\\' ∧ c ≠ '(' ∧ c ≠ '?' ∧ classify c = .ok (.lit c) := by
  simp only [isEscapedChar, escapedChars, decide_eq_false_iff_not, List.mem_cons,
    List.mem_singleton, List.not_mem_nil, or_false, not_or] at h
  obtain ⟨h1, h2, h3, h4, h5, h6, h7, h8, h9, h10, h11, h12, h13, h14, h15, h16⟩ := h
  refine ⟨h3, h10, h8, ?_⟩
  simp [classify, h4, h5, h6, h7, h8, h9, h10, h11, h12, h13, h14, h15, h16]

theorem tokenize_escapeSearchKey (s : List Char) :
    tokenize (escapeSearchKey s) = .ok (s.map Token.lit) := by
  unfold tokenize
  induction s with
  | nil => rfl
  | cons c cs ih =>
    by_cases hc : isEscapedChar c = true
    · simp [escapeSearchKey, hc, tokenizeAux, ih]
    · have hc' : isEscapedChar c = false := by simpa using hc
      obtain ⟨h1, h2, _, h4⟩ := classify_of_not_escaped c hc'
      simp [escapeSearchKey, hc', tokenizeAux, h1, h2, h4, ih]

theorem parseTokens_lits (s : List Char) (st : ParseState) :
    parseTokens st (s.map Token.lit) =
      .ok ⟨st.stack, ⟨st.top.alts, (s.map Re.char).reverse ++ st.top.cur⟩,
        if s = [] then st.last else .atom⟩ := by
  induction s generalizing st with
  | nil => simp [parseTokens]
  | cons c cs ih => simp [parseTokens, parseStep, ih]

theorem mkSeq_reverse (l : List Re) : mkSeq l.reverse = l.foldr Re.seq Re.empty := by
  simp [mkSeq, List.foldl_reverse]

theorem compile_escapeSearchKey (s : List Char) :
    compile (escapeSearchKey s) = .ok (litSeq s) := by
  simp [compile, tokenize_escapeSearchKey, parseTokens_lits, finish, ParseState.init,
    closeFrame, mkSeq_reverse, litSeq]

theorem matchK_litSeq (canon : Char → Char) (s : List Char) (i : Nat) (l : List Char)
    (k : Nat → List Char → Bool) :
    (litSeq s).matchK canon i l k =
      ((s.map canon).isPrefixOf (l.map canon) && k (i + s.length) (l.drop s.length)) := by
  induction s generalizing i l with
  | nil => simp [litSeq, Re.matchK]
  | cons c cs ih =>
    cases l with
    | nil => simp [litSeq, Re.matchK]
    | cons x xs =>
      have := ih (i + 1) xs
      simp only [litSeq] at this
      simp [litSeq, Re.matchK, this, List.isPrefixOf, Bool.and_assoc, Nat.add_assoc,
        Nat.add_comm 1, eq_comm, beq_eq_decide]
      congr!

theorem searchFrom_litSeq (canon : Char → Char) (s : List Char) (i : Nat) (l : List Char) :
    searchFrom canon (litSeq s) i l = true ↔ ContainsIgnoringCase canon s l := by
  unfold ContainsIgnoringCase
  induction l generalizing i with
  | nil =>
    simp [searchFrom, matchK_litSeq, List.isPrefixOf_iff_prefix]
  | cons x xs ih =>
    simp [searchFrom, matchK_litSeq, List.isPrefixOf_iff_prefix, ih, List.infix_cons_iff]

theorem containsSearchKey_eq (canon : Char → Char) (s l : List Char) :
    containsSearchKey canon s l = .ok (decide (ContainsIgnoringCase canon s l)) := by
  have h := searchFrom_litSeq canon s 0 l
  simp only [containsSearchKey, regExpTest, compile_escapeSearchKey]
  congr 1
  by_cases hc : ContainsIgnoringCase canon s l
  · simp [hc, h.mpr hc]
  · have : searchFrom canon (litSeq s) 0 l = false := by
      cases hs : searchFrom canon (litSeq s) 0 l with
      | false => rfl
      | true => exact absurd (h.mp hs) hc
    simp [hc, this]

/-! ## Lemmas on the list view -/

theorem jsFilter_ok {α ε : Type} (f : α → Except ε (Bool × List Effect)) (g : α → Bool)
    (l : List α) (h : ∀ x ∈ l, f x = .ok (g x, [])) :
    jsFilter f l = .ok (l.filter g, []) := by
  induction l with
  | nil => rfl
  | cons x xs ih =>
    have hx := h x (List.mem_cons_self x xs)
    have hxs := ih (fun y hy => h y (List.mem_cons_of_mem x hy))
    cases hg : g x <;> simp [jsFilter, hx, hxs, hg, List.filter]

theorem filterCallback_total (canon : Char → Char) (self : PermissionSetListView)
    (p : PermissionSet) : ∃ r, self.filterCallback canon p = .ok r := by
  unfold PermissionSetListView.filterCallback
  rw [containsSearchKey_eq]
  dsimp only
  split_ifs <;> exact ⟨_, rfl⟩

theorem jsFilter_total {α ε : Type} (f : α → Except ε (Bool × List Effect)) (l : List α)
    (h : ∀ x, ∃ r, f x = .ok r) : ∃ r, jsFilter f l = .ok r := by
  induction l with
  | nil => exact ⟨_, rfl⟩
  | cons x xs ih =>
    obtain ⟨⟨b, log⟩, hx⟩ := h x
    obtain ⟨⟨rest, logs⟩, hxs⟩ := ih
    exact ⟨(if b then x :: rest else rest, log ++ logs), by simp [jsFilter, hx, hxs]⟩

theorem filterCallback_category (canon : Char → Char) (self : PermissionSetListView)
    (category : Category) (h : self.listView = category.value) (p : PermissionSet) :
    self.filterCallback canon p =
      .ok (decide (ContainsIgnoringCase canon self.searchKey.toList p.label.toList) &&
        category.holds p, []) := by
  unfold PermissionSetListView.filterCallback
  rw [containsSearchKey_eq]
  cases category <;>
    simp [h, Category.value, Category.holds, Bool.and_comm]

theorem applyChange_permissionSets (event : ChangeEvent) (self : PermissionSetListView) :
    (self.applyChange event).1.permissionSets = self.permissionSets ∧
    (self.applyChange event).1.displayedPermissionSets = self.displayedPermissionSets := by
  unfold PermissionSetListView.applyChange
  split_ifs <;> exact ⟨rfl, rfl⟩

theorem setDisplayed_fields (self : PermissionSetListView) (r : Option (List PermissionSet)) :
    ((self.setDisplayedPermissionSets r).displayedPermissionSets = none ↔ numElements r = 0) ∧
    (numElements r ≠ 0 → (self.setDisplayedPermissionSets r).displayedPermissionSets = r) ∧
    (self.setDisplayedPermissionSets r).permissionSets = self.permissionSets := by
  cases r with
  | none => simp [PermissionSetListView.setDisplayedPermissionSets, numElements]
  | some l =>
    by_cases hl : l.length = 0
    · simp [PermissionSetListView.setDisplayedPermissionSets, numElements, hl]
    · simp [PermissionSetListView.setDisplayedPermissionSets, numElements, hl]

/-! ## Properties of the list view -/

/-- C1: when the catalog is loaded and the list view after the field update is
one of the three offered, the list `handleChange` hands to
`setDisplayedPermissionSets` is the catalog filtered, in catalog order, by
"label contains the search key up to case" and the category predicate; it is a
sublist of the catalog, each of its elements satisfies both predicates, and
with an empty search key and list view Managed it is the managed items. -/
theorem handleChange_visibleSet (canon : Char → Char) (event : ChangeEvent)
    (self : PermissionSetListView) (catalog : List PermissionSet) (category : Category)
    (hcat : self.permissionSets = some catalog)
    (hview : (self.applyChange event).1.listView = category.value) :
    jsFilter ((self.applyChange event).1.filterCallback canon) catalog =
      .ok (visibleSet canon (self.applyChange event).1.searchKey category catalog, []) ∧
    self.handleChange canon event =
      ⟨(self.applyChange event).1.setDisplayedPermissionSets
          (some (visibleSet canon (self.applyChange event).1.searchKey category catalog)),
        (self.applyChange event).2, none⟩ ∧
    (visibleSet canon (self.applyChange event).1.searchKey category catalog).Sublist catalog ∧
    (∀ p ∈ visibleSet canon (self.applyChange event).1.searchKey category catalog,
      ContainsIgnoringCase canon (self.applyChange event).1.searchKey.toList p.label.toList ∧
      category.holds p = true) ∧
    ((self.applyChange event).1.searchKey = "" → category = Category.managed →
      visibleSet canon (self.applyChange event).1.searchKey category catalog =
        catalog.filter (fun p => p.isManaged)) := by
  have hf : jsFilter ((self.applyChange event).1.filterCallback canon) catalog =
      .ok (visibleSet canon (self.applyChange event).1.searchKey category catalog, []) :=
    jsFilter_ok _ _ _ (fun p _ => filterCallback_category canon _ category hview p)
  refine ⟨hf, ?_, ?_, ?_, ?_⟩
  · have hp := (applyChange_permissionSets event self).1
    rw [hcat] at hp
    simp only [PermissionSetListView.handleChange, hp, hf, List.append_nil]
  · exact List.filter_sublist _
  · intro p hp
    simpa [visibleSet] using (List.mem_filter.mp hp).2
  · intro hs hc
    subst hc
    simp [visibleSet, hs, ContainsIgnoringCase, Category.holds]

/-- C1 at a concrete input: the user types "ADMIN" while `exampleCatalog` is
loaded and the Managed view is selected; only "Sales Admin" is shown. -/
theorem handleChange_visibleSet_witness :
    exampleListView.permissionSets = some exampleCatalog ∧
    (exampleListView.applyChange ⟨"permissionSetSearch", "ADMIN", ""⟩).1.listView =
      Category.managed.value ∧
    visibleSet asciiCanon "ADMIN" Category.managed exampleCatalog = [⟨"A", "Sales Admin", true⟩] ∧
    exampleListView.handleChange asciiCanon ⟨"permissionSetSearch", "ADMIN", ""⟩ =
      ⟨(exampleListView.applyChange ⟨"permissionSetSearch", "ADMIN", ""⟩).1.setDisplayedPermissionSets
          (some (visibleSet asciiCanon
            (exampleListView.applyChange ⟨"permissionSetSearch", "ADMIN", ""⟩).1.searchKey
            Category.managed exampleCatalog)),
        (exampleListView.applyChange ⟨"permissionSetSearch", "ADMIN", ""⟩).2, none⟩ :=
  ⟨rfl, rfl, by decide,
    (handleChange_visibleSet asciiCanon ⟨"permissionSetSearch", "ADMIN", ""⟩ exampleListView
      exampleCatalog Category.managed rfl rfl).2.1⟩

/-- C2: the test built in `handleChange` never reads a character of the search
key as a pattern operator (the escaped source lexes to the literal characters
of the key and compiles to their concatenation) and succeeds exactly when the
label contains the key as a contiguous part up to case; the key `a.b*c` is
found in the label `a.b*c` and not in `aXbYYc`. -/
theorem containsSearchKey_literal (canon : Char → Char) (s l : List Char) :
    tokenize (escapeSearchKey s) = .ok (s.map Token.lit) ∧
    compile (escapeSearchKey s) = .ok (litSeq s) ∧
    (∃ b, containsSearchKey canon s l = .ok b ∧ (b = true ↔ ContainsIgnoringCase canon s l)) ∧
    containsSearchKey asciiCanon "a.b*c".toList "a.b*c".toList = .ok true ∧
    containsSearchKey asciiCanon "a.b*c".toList "aXbYYc".toList = .ok false := by
  refine ⟨tokenize_escapeSearchKey s, compile_escapeSearchKey s, ?_, by decide, by decide⟩
  exact ⟨_, containsSearchKey_eq canon s l, by simp⟩

/-- C3 as stated fails for the wired callback: the search key "zzz", typed
before the catalog arrived, is held; the callback then receives
`exampleCatalog`, of which the filter for the held key keeps nothing, and
`displayedPermissionSets` is the whole catalog, not undefined. -/
theorem wired_callback_shows_unfiltered :
    (PermissionSetListView.init.handleChange asciiCanon
      ⟨"permissionSetSearch", "zzz", ""⟩).state = typedAheadListView ∧
    (typedAheadListView.getPermissionSets none (some exampleCatalog)).searchKey = "zzz" ∧
    jsFilter ((typedAheadListView.getPermissionSets none (some exampleCatalog)).filterCallback
      asciiCanon) exampleCatalog = .ok ([], []) ∧
    (typedAheadListView.getPermissionSets none (some exampleCatalog)).displayedPermissionSets =
      some exampleCatalog := by
  decide

/-- C3 amended: the wired callback applies no filter. On data `d` it stores `d`
and displays undefined when `d` is empty and `d` itself otherwise; on an error
it clears the catalog and displays undefined; on neither it keeps the catalog
and displays undefined when the catalog is undefined or empty and the catalog
otherwise. So after it `displayedPermissionSets` is undefined exactly when the
catalog left in `permissionSets` is undefined or empty, and is that catalog
otherwise. After a completed `handleChange`, `displayedPermissionSets` is
undefined exactly when the filtered result is empty, and is the filtered result
otherwise. -/
theorem displayed_after_recompute (canon : Char → Char) (error : Option String)
    (data : Option (List PermissionSet)) (view : PermissionSetListView)
    (event : ChangeEvent) (self : PermissionSetListView) (catalog : List PermissionSet)
    (hcat : self.permissionSets = some catalog) :
    (∀ d, data = some d →
      view.getPermissionSets error data =
        { view with
          permissionSets := some d, error := none,
          displayedPermissionSets := if d = [] then none else some d }) ∧
    (∀ e, data = none → error = some e →
      view.getPermissionSets error data =
        { view with permissionSets := none, error := some e, displayedPermissionSets := none }) ∧
    (data = none → error = none →
      view.getPermissionSets error data =
        { view with
          displayedPermissionSets :=
            if view.permissionSets = none ∨ view.permissionSets = some [] then none
            else view.permissionSets }) ∧
    ((view.getPermissionSets error data).displayedPermissionSets = none ↔
      (view.getPermissionSets error data).permissionSets = none ∨
      (view.getPermissionSets error data).permissionSets = some []) ∧
    ((view.getPermissionSets error data).displayedPermissionSets ≠ none →
      (view.getPermissionSets error data).displayedPermissionSets =
        (view.getPermissionSets error data).permissionSets) ∧
    ∃ shown log,
      jsFilter ((self.applyChange event).1.filterCallback canon) catalog = .ok (shown, log) ∧
      (self.handleChange canon event).thrown = none ∧
      ((self.handleChange canon event).state.displayedPermissionSets = none ↔ shown = []) ∧
      (shown ≠ [] →
        (self.handleChange canon event).state.displayedPermissionSets = some shown) := by
  refine ⟨?_, ?_, ?_, ?_, ?_, ?_⟩
  · intro d hd
    subst hd
    cases d with
    | nil => rfl
    | cons x xs =>
      simp [PermissionSetListView.getPermissionSets,
        PermissionSetListView.setDisplayedPermissionSets]
  · intro e hd he
    subst hd he
    rfl
  · intro hd he
    subst hd he
    rcases hv : view.permissionSets with _ | l
    · simp [PermissionSetListView.getPermissionSets,
        PermissionSetListView.setDisplayedPermissionSets, hv]
    · cases l with
      | nil =>
        simp [PermissionSetListView.getPermissionSets,
          PermissionSetListView.setDisplayedPermissionSets, hv]
      | cons x xs =>
        simp [PermissionSetListView.getPermissionSets,
          PermissionSetListView.setDisplayedPermissionSets, hv]
  · unfold PermissionSetListView.getPermissionSets
    dsimp only
    generalize (match data, error with
      | some d, _ => ({ view with permissionSets := some d, error := none } : PermissionSetListView)
      | none, some e => { view with error := some e, permissionSets := none }
      | none, none => view) = v
    rcases hv : v.permissionSets with _ | l
    · simp [PermissionSetListView.setDisplayedPermissionSets, hv]
    · cases l <;> simp [PermissionSetListView.setDisplayedPermissionSets, hv]
  · unfold PermissionSetListView.getPermissionSets
    dsimp only
    generalize (match data, error with
      | some d, _ => ({ view with permissionSets := some d, error := none } : PermissionSetListView)
      | none, some e => { view with error := some e, permissionSets := none }
      | none, none => view) = v
    rcases hv : v.permissionSets with _ | l
    · simp [PermissionSetListView.setDisplayedPermissionSets, hv]
    · cases l <;> simp [PermissionSetListView.setDisplayedPermissionSets, hv]
  · obtain ⟨⟨shown, log⟩, hf⟩ := jsFilter_total ((self.applyChange event).1.filterCallback canon)
      catalog (filterCallback_total canon _)
    have hp := (applyChange_permissionSets event self).1
    rw [hcat] at hp
    have h := setDisplayed_fields (self.applyChange event).1 (some shown)
    refine ⟨shown, log, hf, ?_, ?_, ?_⟩
    · simp only [PermissionSetListView.handleChange, hp, hf]
    · simp only [PermissionSetListView.handleChange, hp, hf]
      rw [h.1]
      simp [numElements]
    · intro hne
      simp only [PermissionSetListView.handleChange, hp, hf]
      apply h.2.1
      simpa [numElements] using hne

/-- C3 amended, at concrete inputs: `exampleCatalog` arrives while "zzz" is
held and is displayed whole; "zzz" typed over the loaded `exampleCatalog`
leaves nothing to show and `displayedPermissionSets` becomes undefined. -/
theorem displayed_after_recompute_witness :
    exampleListView.permissionSets = some exampleCatalog ∧
    typedAheadListView.getPermissionSets none (some exampleCatalog) =
      { typedAheadListView with
        permissionSets := some exampleCatalog, error := none,
        displayedPermissionSets := some exampleCatalog } ∧
    (exampleListView.handleChange asciiCanon
      ⟨"permissionSetSearch", "zzz", ""⟩).state.displayedPermissionSets = none ∧
    ∃ shown log,
      jsFilter ((exampleListView.applyChange ⟨"permissionSetSearch", "zzz", ""⟩).1.filterCallback
        asciiCanon) exampleCatalog = .ok (shown, log) ∧
      (exampleListView.handleChange asciiCanon ⟨"permissionSetSearch", "zzz", ""⟩).thrown = none ∧
      ((exampleListView.handleChange asciiCanon
          ⟨"permissionSetSearch", "zzz", ""⟩).state.displayedPermissionSets = none ↔
        shown = []) ∧
      (shown ≠ [] →
        (exampleListView.handleChange asciiCanon
          ⟨"permissionSetSearch", "zzz", ""⟩).state.displayedPermissionSets = some shown) :=
  ⟨rfl,
    (displayed_after_recompute asciiCanon none (some exampleCatalog) typedAheadListView
      ⟨"permissionSetSearch", "zzz", ""⟩ exampleListView exampleCatalog rfl).1
      exampleCatalog rfl,
    by decide,
    (displayed_after_recompute asciiCanon none (some exampleCatalog) typedAheadListView
      ⟨"permissionSetSearch", "zzz", ""⟩ exampleListView exampleCatalog rfl).2.2.2.2.2⟩

/-- C10: with the catalog defined `handleChange` completes and leaves
`permissionSets` as it was; with the catalog undefined it makes the field
update selected by the event (`listView` or `searchKey`; none for another
control name), then throws a TypeError, with `displayedPermissionSets` and
`permissionSets` as before, so a failed call can leave a changed component. -/
theorem handleChange_loaded_or_throws (canon : Char → Char) (event : ChangeEvent)
    (self : PermissionSetListView) :
    (∀ catalog, self.permissionSets = some catalog →
      (self.handleChange canon event).thrown = none ∧
      (self.handleChange canon event).state.permissionSets = some catalog) ∧
    (self.permissionSets = none →
      (self.handleChange canon event).thrown = some JsError.typeError ∧
      (self.handleChange canon event).state = (self.applyChange event).1 ∧
      (self.handleChange canon event).state.displayedPermissionSets =
        self.displayedPermissionSets ∧
      (self.handleChange canon event).state.permissionSets = none ∧
      (event.targetName = "listView" →
        (self.handleChange canon event).state = { self with listView := event.detailValue }) ∧
      (event.targetName = "permissionSetSearch" →
        (self.handleChange canon event).state = { self with searchKey := event.targetValue }) ∧
      (event.targetName ≠ "listView" → event.targetName ≠ "permissionSetSearch" →
        (self.handleChange canon event).state = self)) ∧
    (PermissionSetListView.init.handleChange canon ⟨"permissionSetSearch", "abc", ""⟩).thrown =
      some JsError.typeError ∧
    (PermissionSetListView.init.handleChange canon ⟨"permissionSetSearch", "abc", ""⟩).state ≠
      PermissionSetListView.init := by
  refine ⟨?_, ?_, rfl, by simp [PermissionSetListView.handleChange,
    PermissionSetListView.applyChange, PermissionSetListView.init]⟩
  · intro catalog hcat
    obtain ⟨⟨shown, log⟩, hf⟩ := jsFilter_total ((self.applyChange event).1.filterCallback canon)
      catalog (filterCallback_total canon _)
    have hp := (applyChange_permissionSets event self).1
    rw [hcat] at hp
    simp only [PermissionSetListView.handleChange, hp, hf, true_and]
    rw [(setDisplayed_fields _ _).2.2, hp]
  · intro hnone
    have hp := applyChange_permissionSets event self
    rw [hnone] at hp
    have hstate : self.handleChange canon event =
        ⟨(self.applyChange event).1, (self.applyChange event).2, some JsError.typeError⟩ := by
      simp only [PermissionSetListView.handleChange, hp.1]
    rw [hstate]
    refine ⟨rfl, rfl, hp.2, hp.1, ?_, ?_, ?_⟩
    · intro h
      simp [PermissionSetListView.applyChange, h]
    · intro h
      have h' : event.targetName ≠ "listView" := by rw [h]; decide
      simp [PermissionSetListView.applyChange, h, h']
    · intro h1 h2
      simp [PermissionSetListView.applyChange, h1, h2]

/-- C10 at concrete inputs: a search typed into a loaded list view completes;
the same search typed before the catalog has arrived throws and leaves the new
search key in place. -/
theorem handleChange_loaded_or_throws_witness :
    ((exampleListView.handleChange asciiCanon ⟨"permissionSetSearch", "abc", ""⟩).thrown = none ∧
      (exampleListView.handleChange asciiCanon
        ⟨"permissionSetSearch", "abc", ""⟩).state.permissionSets = some exampleCatalog) ∧
    (PermissionSetListView.init.handleChange asciiCanon
        ⟨"permissionSetSearch", "abc", ""⟩).state =
      { PermissionSetListView.init with searchKey := "abc" } :=
  ⟨(handleChange_loaded_or_throws asciiCanon ⟨"permissionSetSearch", "abc", ""⟩
      exampleListView).1 exampleCatalog rfl,
    ((handleChange_loaded_or_throws asciiCanon ⟨"permissionSetSearch", "abc", ""⟩
      PermissionSetListView.init).2.1 rfl).2.2.2.2.2.1 rfl⟩

/-! ## Properties of the modal -/

/-- C9: the modal starts closed; for every state, whatever `preventClose` is,
`openModal` leaves `isOpen` true and dispatches one `open` event, `closeModal`
leaves `isOpen` false and dispatches one `close` event, `getIsOpen` returns
`isOpen` and changes nothing, and every operation other than `openModal` and
`closeModal` leaves `isOpen` as it was. -/
theorem modal_two_state_machine (self : IdmModal) (op : ModalOp) :
    IdmModal.init.isOpen = false ∧
    self.openModal = (⟨self.preventClose, true⟩, [Effect.customEvent "open"]) ∧
    self.closeModal = (⟨self.preventClose, false⟩, [Effect.customEvent "close"]) ∧
    self.getIsOpen = self.isOpen ∧
    self.step ModalOp.getIsOpen = (self, [], some self.isOpen) ∧
    self.step ModalOp.openModal = (⟨self.preventClose, true⟩, [Effect.customEvent "open"], none) ∧
    self.step ModalOp.closeModal =
      (⟨self.preventClose, false⟩, [Effect.customEvent "close"], none) ∧
    (op ≠ ModalOp.openModal → op ≠ ModalOp.closeModal →
      (self.step op).1.isOpen = self.isOpen ∧ (self.step op).2.1 = []) := by
  refine ⟨rfl, rfl, rfl, rfl, rfl, rfl, rfl, ?_⟩
  intro h1 h2
  cases op with
  | getIsOpen => exact ⟨rfl, rfl⟩
  | openModal => exact absurd rfl h1
  | closeModal => exact absurd rfl h2
  | setPreventClose v => exact ⟨rfl, rfl⟩

/-- C9 at a concrete input: setting `preventClose` on an open modal leaves it
open, and closing it afterwards still works. -/
theorem modal_two_state_machine_witness :
    ((IdmModal.mk false true).step (ModalOp.setPreventClose true)).1.isOpen = true ∧
    ((IdmModal.mk false true).step (ModalOp.setPreventClose true)).2.1 = [] ∧
    (IdmModal.mk true true).closeModal = (⟨true, false⟩, [Effect.customEvent "close"]) :=
  ⟨((modal_two_state_machine ⟨false, true⟩ (ModalOp.setPreventClose true)).2.2.2.2.2.2.2
      (by decide) (by decide)).1,
    ((modal_two_state_machine ⟨false, true⟩ (ModalOp.setPreventClose true)).2.2.2.2.2.2.2
      (by decide) (by decide)).2,
    (modal_two_state_machine ⟨true, true⟩ ModalOp.getIsOpen).2.2.1⟩

/-! ## Properties of the assignment detail -/

/-- C4: on `save`, if `validateQueryFilter` is rejected with message `m`, the
only call made is the validation (no upsert), `error` becomes `m`, the modal is
untouched (no `closeModal`) and no toast is dispatched; if the validation is
fulfilled and the upsert is rejected with `m`, again `error` becomes `m`, the
modal is untouched and no toast is dispatched. -/
theorem save_failure_keeps_modal (backend : Backend) (self : PermissionSetAssignmentDetail)
    (draft : AssignmentSetting) (m : String)
    (hdraft : self.permissionSetAssignmentSettingToUpsert = some draft)
    (hfail : backend.validateQueryFilter draft.SOQL_Filter__c = .error m ∨
      (backend.validateQueryFilter draft.SOQL_Filter__c = .ok () ∧
        backend.upsertPermissionSetAssignmentSettingRecord draft = .error m)) :
    (self.handleClick backend "save").state = { self with error := some m } ∧
    (self.handleClick backend "save").state.error = some m ∧
    (self.handleClick backend "save").state.modal = self.modal ∧
    (self.handleClick backend "save").thrown = none ∧
    (∀ e ∈ (self.handleClick backend "save").effects,
      e.isModalClose = false ∧ e.isToast = false) ∧
    (backend.validateQueryFilter draft.SOQL_Filter__c = .error m →
      (self.handleClick backend "save").effects =
        [Effect.validateQueryFilter draft.SOQL_Filter__c] ∧
      ∀ e ∈ (self.handleClick backend "save").effects, e.isUpsert = false) := by
  rcases hfail with hv | ⟨hv, hu⟩
  · simp [PermissionSetAssignmentDetail.handleClick, hdraft, hv, Effect.isModalClose,
      Effect.isToast, Effect.isUpsert]
  · simp [PermissionSetAssignmentDetail.handleClick, hdraft, hv, hu, Effect.isModalClose,
      Effect.isToast]

/-- C4 at a concrete input: saving against a controller that rejects the filter
with `boom` keeps the open modal open and shows `boom`. -/
theorem save_failure_keeps_modal_witness :
    exampleDetail.permissionSetAssignmentSettingToUpsert = some ⟨"PS0", "IsActive = true"⟩ ∧
    failingBackend.validateQueryFilter "IsActive = true" = .error "boom" ∧
    (exampleDetail.handleClick failingBackend "save").state.error = some "boom" ∧
    (exampleDetail.handleClick failingBackend "save").state.modal.isOpen = true ∧
    (exampleDetail.handleClick failingBackend "save").effects =
      [Effect.validateQueryFilter "IsActive = true"] :=
  ⟨rfl, rfl,
    (save_failure_keeps_modal failingBackend exampleDetail ⟨"PS0", "IsActive = true"⟩ "boom" rfl
      (Or.inl rfl)).2.1,
    by decide,
    ((save_failure_keeps_modal failingBackend exampleDetail ⟨"PS0", "IsActive = true"⟩ "boom" rfl
      (Or.inl rfl)).2.2.2.2.2 rfl).1⟩

/-- C5: on `save`, if the validation and the upsert are both fulfilled, the
calls made are one validation and one upsert of the current draft, followed by
the `close` event of the modal and one success toast; afterwards `error` is
undefined and the modal is closed. -/
theorem save_success_closes_modal (backend : Backend) (self : PermissionSetAssignmentDetail)
    (draft : AssignmentSetting)
    (hdraft : self.permissionSetAssignmentSettingToUpsert = some draft)
    (hvalid : backend.validateQueryFilter draft.SOQL_Filter__c = .ok ())
    (hupsert : backend.upsertPermissionSetAssignmentSettingRecord draft = .ok ()) :
    (self.handleClick backend "save").effects =
      [Effect.validateQueryFilter draft.SOQL_Filter__c,
        Effect.upsertPermissionSetAssignmentSettingRecord draft,
        Effect.customEvent "close", saveToast] ∧
    (self.handleClick backend "save").effects.filter Effect.isUpsert =
      [Effect.upsertPermissionSetAssignmentSettingRecord draft] ∧
    (self.handleClick backend "save").effects.filter Effect.isToast =
      [Effect.showToast "Success"
        "Permission Set Assignment Setting save enqueued successfully." "success"] ∧
    (self.handleClick backend "save").effects.filter Effect.isModalClose =
      [Effect.customEvent "close"] ∧
    (self.handleClick backend "save").state.error = none ∧
    (self.handleClick backend "save").state.modal = self.modal.closeModal.1 ∧
    (self.handleClick backend "save").state.modal.isOpen = false ∧
    (self.handleClick backend "save").thrown = none := by
  simp [PermissionSetAssignmentDetail.handleClick, hdraft, hvalid, hupsert, IdmModal.closeModal,
    saveToast, Effect.isUpsert, Effect.isToast, Effect.isModalClose, List.filter]

/-- C5 at a concrete input: saving the draft of `exampleDetail` against a
controller that accepts it closes the modal and clears the earlier error. -/
theorem save_success_closes_modal_witness :
    exampleDetail.error = some "unexpected token" ∧
    exampleDetail.modal.isOpen = true ∧
    (exampleDetail.handleClick exampleBackend "save").state.error = none ∧
    (exampleDetail.handleClick exampleBackend "save").state.modal.isOpen = false ∧
    (exampleDetail.handleClick exampleBackend "save").effects =
      [Effect.validateQueryFilter "IsActive = true",
        Effect.upsertPermissionSetAssignmentSettingRecord ⟨"PS0", "IsActive = true"⟩,
        Effect.customEvent "close", saveToast] :=
  ⟨rfl, rfl,
    (save_success_closes_modal exampleBackend exampleDetail ⟨"PS0", "IsActive = true"⟩
      rfl rfl rfl).2.2.2.2.1,
    (save_success_closes_modal exampleBackend exampleDetail ⟨"PS0", "IsActive = true"⟩
      rfl rfl rfl).2.2.2.2.2.2.1,
    (save_success_closes_modal exampleBackend exampleDetail ⟨"PS0", "IsActive = true"⟩
      rfl rfl rfl).1⟩

/-- C6 as stated fails: with both reads fulfilled and no assignment setting for
`PS1`, the draft carries the name of the record read, `OTHER`, not `PS1`; and
when the permission set read is fulfilled with no record there is no draft. -/
theorem draft_owner_from_record :
    renamingBackend.getPermissionSet "PS1" = .ok (some ⟨"OTHER", "Other", false⟩) ∧
    renamingBackend.getPermissionSetAssignmentSetting "PS1" = .ok none ∧
    (PermissionSetAssignmentDetail.init.setPermissionSetName renamingBackend
      (some "PS1")).state.permissionSetAssignmentSettingToUpsert = some ⟨"OTHER", ""⟩ ∧
    (PermissionSetAssignmentDetail.init.setPermissionSetName renamingBackend
      (some "PS1")).state.permissionSetAssignmentSettingToUpsert ≠ some ⟨"PS1", ""⟩ ∧
    emptyBackend.getPermissionSet "PS1" = .ok none ∧
    emptyBackend.getPermissionSetAssignmentSetting "PS1" = .ok none ∧
    (PermissionSetAssignmentDetail.init.setPermissionSetName emptyBackend
      (some "PS1")).state.permissionSetAssignmentSettingToUpsert = none := by
  decide

/-- C6 amended: when a new non-empty name `n` is assigned to
`permissionSetName`, the read of the permission set is fulfilled with a record
and the read of the assignment setting is fulfilled with no record, the draft
is `PermissionSet__c = ` the name of the record read, `SOQL_Filter__c = ''`;
it is `PermissionSet__c = n`, `SOQL_Filter__c = ''` when that record is named
`n`. -/
theorem draft_for_missing_setting (backend : Backend) (n : String)
    (self : PermissionSetAssignmentDetail) (ps : PermissionSet)
    (hn : n ≠ "") (hnew : self._permissionSetName ≠ some n)
    (hps : backend.getPermissionSet n = .ok (some ps))
    (hset : backend.getPermissionSetAssignmentSetting n = .ok none) :
    (self.setPermissionSetName backend (some n)).state.permissionSetAssignmentSettingToUpsert =
      some ⟨ps.name, ""⟩ ∧
    (ps.name = n →
      (self.setPermissionSetName backend (some n)).state.permissionSetAssignmentSettingToUpsert =
        some ⟨n, ""⟩) ∧
    (self.setPermissionSetName backend (some n)).state.permissionSetAssignmentSetting = none ∧
    (self.setPermissionSetName backend (some n)).state.permissionSet = some ps ∧
    (self.setPermissionSetName backend (some n)).state.isLoading = false ∧
    (self.setPermissionSetName backend (some n)).effects =
      [Effect.getPermissionSet n, Effect.getPermissionSetAssignmentSetting n] := by
  have key : self.setPermissionSetName backend (some n) =
      ⟨{ self with
          _permissionSetName := some n, isLoading := false, error := none,
          permissionSet := some ps, permissionSetAssignmentSetting := none,
          permissionSetAssignmentSettingToUpsert := some ⟨ps.name, ""⟩ },
        [Effect.getPermissionSet n, Effect.getPermissionSetAssignmentSetting n], none⟩ := by
    simp [PermissionSetAssignmentDetail.setPermissionSetName, hn, hnew, hps, hset,
      PermissionSetAssignmentDetail.loaded, PermissionSetAssignmentDetail.settle]
  rw [key]
  refine ⟨rfl, ?_, rfl, rfl, rfl, rfl⟩
  intro hname
  rw [hname]

/-- C6 amended, at the input of the specification: selecting `PS1`, for which
the record named `PS1` is read and no assignment setting exists, on a fresh
component. -/
theorem draft_for_missing_setting_witness :
    exampleBackend.getPermissionSet "PS1" = .ok (some ⟨"PS1", "Permission Set 1", false⟩) ∧
    exampleBackend.getPermissionSetAssignmentSetting "PS1" = .ok none ∧
    (PermissionSetAssignmentDetail.init.setPermissionSetName exampleBackend
      (some "PS1")).state.permissionSetAssignmentSettingToUpsert = some ⟨"PS1", ""⟩ :=
  ⟨rfl, rfl,
    (draft_for_missing_setting exampleBackend "PS1" PermissionSetAssignmentDetail.init
      ⟨"PS1", "Permission Set 1", false⟩ (by decide) (by decide) rfl rfl).2.1 rfl⟩

theorem setPermissionSetName_name (backend : Backend) (n : String)
    (self : PermissionSetAssignmentDetail) (hn : n ≠ "") :
    (self.setPermissionSetName backend (some n)).state._permissionSetName = some n := by
  by_cases hnew : self._permissionSetName = some n
  · simp [PermissionSetAssignmentDetail.setPermissionSetName, hnew]
  · simp only [PermissionSetAssignmentDetail.setPermissionSetName, hn, hnew, ne_eq,
      not_false_eq_true, and_self, if_true]
    cases backend.getPermissionSet n with
    | error e => rfl
    | ok ps =>
      cases backend.getPermissionSetAssignmentSetting n with
      | error e => rfl
      | ok setting =>
        cases setting with
        | some a => rfl
        | none => cases ps <;> rfl

theorem setPermissionSetName_again (backend : Backend) (n : Option String)
    (self : PermissionSetAssignmentDetail) (h : ∀ m, n = some m → m ≠ "" →
      self._permissionSetName = some m) :
    self.setPermissionSetName backend n = ⟨self, [], none⟩ := by
  cases n with
  | none => rfl
  | some m =>
    by_cases hm : m = ""
    · simp [PermissionSetAssignmentDetail.setPermissionSetName, hm]
    · simp [PermissionSetAssignmentDetail.setPermissionSetName, h m rfl hm]

/-! ## Properties of the selection listeners -/

/-- C7 as stated fails for `PermissionSetDetail`: when the read started by the
first delivery of `PS1` is rejected, the second delivery of `PS1` starts the
read again, and changes the component when that read is fulfilled. -/
theorem second_delivery_refetches :
    ((PermissionSetDetail.init.handlePermissionSetSelected failingBackend
        "PS1").state.handlePermissionSetSelected failingBackend "PS1").effects =
      [Effect.getPermissionSet "PS1", Effect.consoleError "Error"] ∧
    ((PermissionSetDetail.init.handlePermissionSetSelected failingBackend
        "PS1").state.handlePermissionSetSelected exampleBackend "PS1").state ≠
      (PermissionSetDetail.init.handlePermissionSetSelected failingBackend "PS1").state := by
  decide

/-- C7 amended: a second delivery of the name `n` changes nothing and starts
no read in `PermissionSetManager` and in the `permissionSetName` setter of
`PermissionSetAssignmentDetail` (whatever the controller did with the first
one), and in `PermissionSetDetail` when the read started by the first delivery
was fulfilled with the record named `n`. -/
theorem second_delivery_noop (backend backend' : Backend) (n : String)
    (manager : PermissionSetManager) (detail : PermissionSetAssignmentDetail)
    (view : PermissionSetDetail) (ps : PermissionSet)
    (hps : (view.handlePermissionSetSelected backend n).state.permissionSet = some ps)
    (hname : ps.name = n) :
    (manager.handlePermissionSetSelected n).handlePermissionSetSelected n =
      manager.handlePermissionSetSelected n ∧
    (detail.setPermissionSetName backend (some n)).state.setPermissionSetName backend' (some n) =
      ⟨(detail.setPermissionSetName backend (some n)).state, [], none⟩ ∧
    (view.handlePermissionSetSelected backend n).state.handlePermissionSetSelected backend' n =
      ⟨(view.handlePermissionSetSelected backend n).state, [], none⟩ := by
  refine ⟨rfl, ?_, ?_⟩
  · apply setPermissionSetName_again
    intro m hm hne
    cases hm
    exact setPermissionSetName_name backend n detail hne
  · generalize (view.handlePermissionSetSelected backend n).state = v at hps
    simp [PermissionSetDetail.handlePermissionSetSelected, hps, hname]

/-- C7 amended, at a concrete input: `PS1` delivered twice to a fresh
`PermissionSetDetail`, the first read being fulfilled. -/
theorem second_delivery_noop_witness :
    (PermissionSetDetail.init.handlePermissionSetSelected exampleBackend "PS1").state.permissionSet
      = some ⟨"PS1", "Permission Set 1", false⟩ ∧
    (PermissionSetDetail.init.handlePermissionSetSelected exampleBackend
        "PS1").state.handlePermissionSetSelected failingBackend "PS1" =
      ⟨(PermissionSetDetail.init.handlePermissionSetSelected exampleBackend "PS1").state,
        [], none⟩ :=
  ⟨rfl,
    (second_delivery_noop exampleBackend failingBackend "PS1" PermissionSetManager.init
      PermissionSetAssignmentDetail.init PermissionSetDetail.init
      ⟨"PS1", "Permission Set 1", false⟩ rfl rfl).2.2⟩

/-- C8 as stated fails: after a rejected read the `error` field does not hold
the error; it is undefined, also when it held a message before. -/
theorem fetch_failure_clears_error :
    failingBackend.getPermissionSet "PS1" = .error "boom" ∧
    (PermissionSetAssignmentDetail.init.setPermissionSetName failingBackend
      (some "PS1")).state.error = none ∧
    exampleDetail.error = some "unexpected token" ∧
    (exampleDetail.setPermissionSetName failingBackend (some "PS1")).state.error = none := by
  decide

/-- C8 amended: when a new non-empty name is assigned to `permissionSetName` and
either read is rejected, the error is written to the console only; once the
joined request has settled `error` is undefined, `isLoading` is false, and
`permissionSet`, `permissionSetAssignmentSetting` and
`permissionSetAssignmentSettingToUpsert` are as before the assignment. -/
theorem fetch_failure_keeps_records (backend : Backend) (n : String)
    (self : PermissionSetAssignmentDetail)
    (hn : n ≠ "") (hnew : self._permissionSetName ≠ some n)
    (hfail : (∃ m, backend.getPermissionSet n = .error m) ∨
      (∃ m, backend.getPermissionSetAssignmentSetting n = .error m)) :
    (self.setPermissionSetName backend (some n)).state =
      { self with _permissionSetName := some n, isLoading := false, error := none } ∧
    (self.setPermissionSetName backend (some n)).state.error = none ∧
    (self.setPermissionSetName backend (some n)).state.isLoading = false ∧
    (self.setPermissionSetName backend (some n)).state.permissionSet = self.permissionSet ∧
    (self.setPermissionSetName backend (some n)).state.permissionSetAssignmentSetting =
      self.permissionSetAssignmentSetting ∧
    (self.setPermissionSetName backend (some n)).state.permissionSetAssignmentSettingToUpsert =
      self.permissionSetAssignmentSettingToUpsert ∧
    (self.setPermissionSetName backend (some n)).effects =
      [Effect.getPermissionSet n, Effect.getPermissionSetAssignmentSetting n,
        Effect.consoleError "Error"] := by
  have key : self.setPermissionSetName backend (some n) =
      ⟨{ self with _permissionSetName := some n, isLoading := false, error := none },
        [Effect.getPermissionSet n, Effect.getPermissionSetAssignmentSetting n,
          Effect.consoleError "Error"], none⟩ := by
    simp only [PermissionSetAssignmentDetail.setPermissionSetName, hn, hnew, ne_eq,
      not_false_eq_true, and_self, if_true]
    rcases hfail with ⟨m, h⟩ | ⟨m, h⟩
    · rw [h]; rfl
    · rw [h]
      cases backend.getPermissionSet n <;> rfl
  rw [key]
  exact ⟨rfl, rfl, rfl, rfl, rfl, rfl, rfl⟩

/-- C8 amended, at a concrete input: `PS1` is selected on `exampleDetail` while
the controller rejects every read. -/
theorem fetch_failure_keeps_records_witness :
    (exampleDetail.setPermissionSetName failingBackend (some "PS1")).state =
      { exampleDetail with _permissionSetName := some "PS1", isLoading := false, error := none } ∧
    (exampleDetail.setPermissionSetName failingBackend (some "PS1")).effects =
      [Effect.getPermissionSet "PS1", Effect.getPermissionSetAssignmentSetting "PS1",
        Effect.consoleError "Error"] :=
  ⟨(fetch_failure_keeps_records failingBackend "PS1" exampleDetail (by decide) (by decide)
      (Or.inl ⟨"boom", rfl⟩)).1,
    (fetch_failure_keeps_records failingBackend "PS1" exampleDetail (by decide) (by decide)
      (Or.inl ⟨"boom", rfl⟩)).2.2.2.2.2.2⟩

end PSM
